import Mathlib

/-!
Verification of the motion/meter type-narrowing snippet.

The source is a single TypeScript module: a discriminated union of motion
readings (static or moving), a meter reading, runtime validators that throw
string-tagged errors, a repository method that deep-clones its input before
validating and persisting it, and two warning rules.

Modelling choices, from the source:
- A JavaScript runtime value that an untrusted speed field may hold is an
  explicit inductive: finite numbers are rationals, and NaN, the infinities,
  undefined, null, strings and booleans are the other shapes the runtime
  checks distinguish.  Number.isFinite is true exactly on finite numbers,
  and JavaScript truthiness is defined case by case.
- Thrown string literals become an error inductive; a throwing function
  returns Except.
- Timestamps are rationals measured in hours, so that the luxon call
  diff(other, hours).hours is plain subtraction.
- console.warn emissions and history fetches become explicit output lists,
  so that "a warning fires" and "exactly one record is fetched" are facts
  about the returned value.
- Object identity and mutation in createMovingMotion become a heap from
  addresses to record values: structuredClone copies the value at the input
  address to a fresh address, and the speed assignment updates the clone's
  cell only.
-/

/-- A JavaScript runtime value as an untrusted speed field may hold it.
Finite numbers carry a rational; NaN and the two infinities are numbers for
which Number.isFinite is false; undefined also stands for an absent field. -/
inductive JSValue where
  | num (q : ℚ)
  | nan
  | inf
  | negInf
  | undef
  | nullv
  | str (s : String)
  | boolv (b : Bool)
deriving DecidableEq

/-- JavaScript truthiness: 0, NaN, undefined, null, the empty string and
false are falsy; every other value, the infinities included, is truthy. -/
def JSValue.truthy : JSValue → Bool
  | .num q => decide (q ≠ 0)
  | .nan => false
  | .inf => true
  | .negInf => true
  | .undef => false
  | .nullv => false
  | .str s => decide (s ≠ "")
  | .boolv b => b

/-- The two status tags of the discriminated union MotionDto. -/
inductive Status where
  | static
  | moving
deriving DecidableEq

/-- The runtime shape shared by StaticMotionDto and MovingMotionDto: the
status tag discriminates, and speed holds the runtime value of the speed
property — JSValue.undef when the field is absent, as it is on a
static-tagged record. -/
structure MotionDto where
  sensorId : String
  deviceId : String
  timestamp : ℚ
  sensitivity : String
  status : Status
  speed : JSValue
deriving DecidableEq

/-- MeterDto from the source, with numeric fields as rationals. -/
structure MeterDto where
  sensorId : String
  deviceId : String
  powerConsumption : ℚ
  maximumPowerConsumption : ℚ
deriving DecidableEq

/-- The three thrown string literals of the source as error kinds:
NotMoving for the string NotMoving!, UnknownDataType and NotZeroOrNegative
verbatim. -/
inductive ValidationError where
  | NotMoving
  | UnknownDataType
  | NotZeroOrNegative
deriving DecidableEq

/-- Source: isPowerConsumptionHigh returns
powerConsumption > maximumPowerConsumption. -/
def isPowerConsumptionHigh (meterDto : MeterDto) : Bool :=
  decide (meterDto.powerConsumption > meterDto.maximumPowerConsumption)

/-- Source: isNumber is Number.isFinite, true exactly on finite numbers. -/
def isNumber (input : JSValue) : Bool :=
  match input with
  | .num _ => true
  | _ => false

/-- Source: assertIsMoving throws NotMoving! when the status is moving and
the speed field is falsy, and otherwise does nothing — in particular it does
nothing on a static-tagged record. -/
def assertIsMoving (motionDto : MotionDto) : Except ValidationError Unit :=
  if motionDto.status = Status.moving ∧ motionDto.speed.truthy = false then
    Except.error ValidationError.NotMoving
  else
    Except.ok ()

/-- Source: assertNotZeroOrNegative first throws UnknownDataType unless
isNumber holds, then throws NotZeroOrNegative when the (now finite) number
is at most 0.  Only a finite number ever reaches the range check, so the
two ordered source checks are exactly this match. -/
def assertNotZeroOrNegative (speed : JSValue) : Except ValidationError Unit :=
  match speed with
  | .num q =>
    if q ≤ 0 then Except.error ValidationError.NotZeroOrNegative else Except.ok ()
  | _ => Except.error ValidationError.UnknownDataType

/-- Source: the type guard isStatic returns whether the status tag equals
the string static. -/
def isStatic (motionDto : MotionDto) : Bool :=
  decide (motionDto.status = Status.static)

/-- Source: sanitizeSpeed copies its argument into a local and returns it —
the identity transform. -/
def sanitizeSpeed (speed : JSValue) : JSValue :=
  let sanitizedSpeed := speed
  sanitizedSpeed

/-- Addresses of the object heap. -/
abbrev Addr := Nat

/-- The object store: a JavaScript object reference is an address into a
heap of record values. -/
def Heap := Addr → MotionDto

/-- Writing one heap cell, leaving every other address untouched. -/
def Heap.update (h : Heap) (a : Addr) (m : MotionDto) : Heap :=
  fun x => if x = a then m else h x

/-- structuredClone: allocate the value found at the input address into a
fresh cell; the clone shares no cell with the original. -/
def structuredClone (h : Heap) (a : Addr) (fresh : Addr) : Heap :=
  h.update fresh (h a)

/-- Replacing the speed field of a record value, keeping every other field. -/
def MotionDto.withSpeed (m : MotionDto) (v : JSValue) : MotionDto :=
  ⟨m.sensorId, m.deviceId, m.timestamp, m.sensitivity, m.status, v⟩

/-- What one call of MotionRepository.createMovingMotion did: the value it
returned or the error it threw, the heap after the call, and the list of
record values handed to the persistence collaborator dbClient.create. -/
structure CreateOutcome where
  result : Except ValidationError MotionDto
  heap : Heap
  persisted : List MotionDto

/-- Source: createMovingMotion deep-clones the input with structuredClone,
runs assertIsMoving then assertNotZeroOrNegative on the clone, overwrites
the clone's speed with sanitizeSpeed of it, and delegates the clone to
dbClient.create.  The caller's object is the cell at address a; the clone
lives at the fresh address; a thrown validator error aborts before the
persistence call, so persisted stays empty on failure.  The collaborator
dbClient.create only ever receives the clone's value and its return value
is modelled as that record. -/
def createMovingMotion (h : Heap) (a : Addr) (fresh : Addr) : CreateOutcome :=
  let h1 := structuredClone h a fresh
  match assertIsMoving (h1 fresh) with
  | .error e => ⟨Except.error e, h1, []⟩
  | .ok _ =>
    match assertNotZeroOrNegative (h1 fresh).speed with
    | .error e => ⟨Except.error e, h1, []⟩
    | .ok _ =>
      let h2 := h1.update fresh ((h1 fresh).withSpeed (sanitizeSpeed (h1 fresh).speed))
      ⟨Except.ok (h2 fresh), h2, [h2 fresh]⟩

/-- The validation prefix of createMovingMotion: assertIsMoving, then
assertNotZeroOrNegative on the speed field, in source order, as one
Except computation. -/
def validateMotion (m : MotionDto) : Except ValidationError Unit :=
  match assertIsMoving m with
  | .error e => Except.error e
  | .ok _ => assertNotZeroOrNegative m.speed

/-- A console.warn emission, keeping exactly the identifying fields the
messages interpolate: the device id for the two sensitivity warnings and
the consumption warning, the sensor id and the speed value for the motion
attribution warning. -/
inductive Warning where
  | sensitivityTooLow (deviceId : String)
  | sensitivityTooHigh (deviceId : String)
  | highConsumption (deviceId : String)
  | movingAttribution (sensorId : String) (speed : JSValue)
deriving DecidableEq

/-- One history fetch: which collaborator method was called and with which
device id. -/
inductive Fetch where
  | lastMoving (deviceId : String)
  | lastStatic (deviceId : String)
deriving DecidableEq

/-- A historical record as this module reads it: only its timestamp (in
hours) is consumed. -/
structure HistoricalRecord where
  timestamp : ℚ
deriving DecidableEq

/-- The external motionRepository collaborator: the two lookup methods the
source awaits.  The spec assumes each lookup always resolves to a record. -/
structure HistoryRepo where
  getLastMovingRecord : String → HistoricalRecord
  getLastStaticRecord : String → HistoricalRecord

/-- What one call of sanityCheckSensitivity did: the warnings it emitted
and the history fetches it performed, in order. -/
structure SanityOutcome where
  warnings : List Warning
  fetches : List Fetch
deriving DecidableEq

/-- Source: sanityCheckSensitivity branches on isStatic.  Static: fetch the
last moving record, and when the hour difference (current minus fetched) is
strictly above 12, warn that sensitivity is too low for the device.  Moving:
fetch the last static record and, symmetrically, warn that sensitivity is
too high.  DateTime diff in hours is subtraction of hour-valued
timestamps. -/
def sanityCheckSensitivity (motionRepository : HistoryRepo) (motionDto : MotionDto) :
    SanityOutcome :=
  if isStatic motionDto then
    let lastMovingRecord := motionRepository.getLastMovingRecord motionDto.deviceId
    let diff := motionDto.timestamp - lastMovingRecord.timestamp
    ⟨if diff > 12 then [Warning.sensitivityTooLow motionDto.deviceId] else [],
     [Fetch.lastMoving motionDto.deviceId]⟩
  else
    let lastStaticRecord := motionRepository.getLastStaticRecord motionDto.deviceId
    let diff := motionDto.timestamp - lastStaticRecord.timestamp
    ⟨if diff > 12 then [Warning.sensitivityTooHigh motionDto.deviceId] else [],
     [Fetch.lastStatic motionDto.deviceId]⟩

/-- The single historical record sanityCheckSensitivity fetches: the one of
the opposite state. -/
def oppositeRecord (motionRepository : HistoryRepo) (motionDto : MotionDto) :
    HistoricalRecord :=
  if isStatic motionDto then
    motionRepository.getLastMovingRecord motionDto.deviceId
  else
    motionRepository.getLastStaticRecord motionDto.deviceId

/-- Source: notifyMeOnMovingHighConsumptionDevice returns at once unless
isPowerConsumptionHigh holds; otherwise it runs assertIsMoving (whose throw
propagates) and then emits the two console warnings. -/
def notifyMeOnMovingHighConsumptionDevice (motionDto : MotionDto) (meterDto : MeterDto) :
    Except ValidationError (List Warning) :=
  if isPowerConsumptionHigh meterDto = false then
    Except.ok []
  else
    match assertIsMoving motionDto with
    | .error e => Except.error e
    | .ok _ =>
      Except.ok [Warning.highConsumption motionDto.deviceId,
        Warning.movingAttribution motionDto.sensorId motionDto.speed]

/-- A concrete moving reading with speed 5 at hour 13. -/
def movingDto : MotionDto :=
  ⟨"sensor-1", "device-1", 13, "low", Status.moving, JSValue.num 5⟩

/-- A concrete moving-tagged reading whose speed is 0, so validation fails. -/
def movingZeroDto : MotionDto :=
  ⟨"sensor-3", "device-3", 13, "low", Status.moving, JSValue.num 0⟩

/-- A concrete static reading; its speed field is absent, hence undefined. -/
def staticDto : MotionDto :=
  ⟨"sensor-2", "device-2", 12, "low", Status.static, JSValue.undef⟩

/-- A meter drawing 100 against a maximum of 50: high consumption. -/
def meterHigh : MeterDto := ⟨"sensor-1", "device-1", 100, 50⟩

/-- A heap whose every cell holds the static reading. -/
def heapStatic : Heap := fun _ => staticDto

/-- A heap whose every cell holds the zero-speed moving reading. -/
def heapMovingZero : Heap := fun _ => movingZeroDto

/-- A heap whose every cell holds the valid moving reading. -/
def heapMoving : Heap := fun _ => movingDto

/-- A history collaborator whose every record is at hour 0. -/
def repoZero : HistoryRepo := ⟨fun _ => ⟨0⟩, fun _ => ⟨0⟩⟩

/-- Helper: the clone cell holds the value the input cell held. -/
theorem structuredClone_at_fresh (h : Heap) (a fresh : Addr) :
    structuredClone h a fresh fresh = h a := by
  simp [structuredClone, Heap.update]

/-- Helper: a one-element conditional list is nonempty exactly when its
condition holds. -/
theorem ite_singleton_ne_nil {c : Prop} [Decidable c] (w : Warning) :
    (if c then [w] else []) ≠ [] ↔ c := by
  by_cases hc : c <;> simp [hc]

/-- Claim C1: for every heap, input address and fresh clone address, after
createMovingMotion returns or fails the caller's original reading — the cell
at the input address — equals its pre-call snapshot; indeed every cell other
than the private clone's is untouched, so all mutation (the speed
replacement by sanitizeSpeed) lands on the deep copy only. -/
theorem createMovingMotion_no_input_mutation (h : Heap) (a fresh : Addr)
    (hfresh : fresh ≠ a) :
    (createMovingMotion h a fresh).heap a = h a ∧
    (∀ x : Addr, x ≠ fresh → (createMovingMotion h a fresh).heap x = h x) := by
  have frame : ∀ x : Addr, x ≠ fresh → (createMovingMotion h a fresh).heap x = h x := by
    intro x hx
    simp only [createMovingMotion]
    split
    · simp [structuredClone, Heap.update, hx]
    · split
      · simp [structuredClone, Heap.update, hx]
      · simp [structuredClone, Heap.update, hx]
  exact ⟨frame a (Ne.symm hfresh), frame⟩

/-- Witness for C1: with the valid moving reading at address 0 and the
clone at address 1, cell 0 is unchanged by the call. -/
theorem createMovingMotion_no_input_mutation_witness :
    (createMovingMotion heapMoving 0 1).heap 0 = heapMoving 0 :=
  (createMovingMotion_no_input_mutation heapMoving 0 1 (by decide)).1

/-- Helper for C2: success of assertNotZeroOrNegative characterised. -/
theorem anz_ok_iff (v : JSValue) :
    assertNotZeroOrNegative v = Except.ok () ↔ ∃ q : ℚ, v = JSValue.num q ∧ 0 < q := by
  cases v with
  | num q =>
    by_cases hq : q ≤ 0 <;> simp [assertNotZeroOrNegative, hq, not_lt]
    linarith
  | nan => simp [assertNotZeroOrNegative]
  | inf => simp [assertNotZeroOrNegative]
  | negInf => simp [assertNotZeroOrNegative]
  | undef => simp [assertNotZeroOrNegative]
  | nullv => simp [assertNotZeroOrNegative]
  | str s => simp [assertNotZeroOrNegative]
  | boolv b => simp [assertNotZeroOrNegative]

/-- Helper for C2: the UnknownDataType failure characterised. -/
theorem anz_unknown_iff (v : JSValue) :
    assertNotZeroOrNegative v = Except.error ValidationError.UnknownDataType ↔
      isNumber v = false := by
  cases v with
  | num q => by_cases hq : q ≤ 0 <;> simp [assertNotZeroOrNegative, isNumber, hq]
  | nan => simp [assertNotZeroOrNegative, isNumber]
  | inf => simp [assertNotZeroOrNegative, isNumber]
  | negInf => simp [assertNotZeroOrNegative, isNumber]
  | undef => simp [assertNotZeroOrNegative, isNumber]
  | nullv => simp [assertNotZeroOrNegative, isNumber]
  | str s => simp [assertNotZeroOrNegative, isNumber]
  | boolv b => simp [assertNotZeroOrNegative, isNumber]

/-- Helper for C2: the NotZeroOrNegative failure characterised. -/
theorem anz_notpos_iff (v : JSValue) :
    assertNotZeroOrNegative v = Except.error ValidationError.NotZeroOrNegative ↔
      ∃ q : ℚ, v = JSValue.num q ∧ q ≤ 0 := by
  cases v with
  | num q => by_cases hq : q ≤ 0 <;> simp [assertNotZeroOrNegative, hq]
  | nan => simp [assertNotZeroOrNegative]
  | inf => simp [assertNotZeroOrNegative]
  | negInf => simp [assertNotZeroOrNegative]
  | undef => simp [assertNotZeroOrNegative]
  | nullv => simp [assertNotZeroOrNegative]
  | str s => simp [assertNotZeroOrNegative]
  | boolv b => simp [assertNotZeroOrNegative]

/-- Claim C2: assertNotZeroOrNegative succeeds exactly on finite numbers
strictly above zero, fails with UnknownDataType exactly when the value is
not a finite number (NaN, undefined, wrong type, the infinities), and fails
with NotZeroOrNegative exactly on finite numbers at most zero.  The type
check runs before the range check — negative infinity, which a range-first
order would send to NotZeroOrNegative, yields UnknownDataType — and the two
failure kinds are distinct. -/
theorem assertNotZeroOrNegative_spec (v : JSValue) :
    (assertNotZeroOrNegative v = Except.ok () ↔
      ∃ q : ℚ, v = JSValue.num q ∧ 0 < q) ∧
    (assertNotZeroOrNegative v = Except.error ValidationError.UnknownDataType ↔
      isNumber v = false) ∧
    (assertNotZeroOrNegative v = Except.error ValidationError.NotZeroOrNegative ↔
      ∃ q : ℚ, v = JSValue.num q ∧ q ≤ 0) ∧
    assertNotZeroOrNegative JSValue.negInf =
      Except.error ValidationError.UnknownDataType ∧
    ValidationError.UnknownDataType ≠ ValidationError.NotZeroOrNegative :=
  ⟨anz_ok_iff v, anz_unknown_iff v, anz_notpos_iff v, rfl, by decide⟩

/-- Claim C3: assertIsMoving succeeds exactly when the tag is static or the
speed field is truthy — so a moving-tagged reading with a truthy (non-zero,
non-missing) speed passes, a static-tagged reading is never checked and
silently passes — and fails with NotMoving exactly when the tag is moving
and the speed is falsy (zero or absent). -/
theorem assertIsMoving_spec (m : MotionDto) :
    (assertIsMoving m = Except.ok () ↔
      (m.status = Status.static ∨ m.speed.truthy = true)) ∧
    (assertIsMoving m = Except.error ValidationError.NotMoving ↔
      (m.status = Status.moving ∧ m.speed.truthy = false)) := by
  obtain ⟨sid, did, ts, sens, st, sp⟩ := m
  cases st <;> cases hsp : sp.truthy <;> simp [assertIsMoving, hsp]

/-- Claim C4: the 12-hour threshold of sanityCheckSensitivity is strict: a
warning fires exactly when the elapsed hours from the fetched opposite-state
record's timestamp to the current reading's timestamp is strictly greater
than 12; at exactly 12 hours no warning fires, and a negative difference —
the current reading preceding the historical record — fires none either. -/
theorem sanityCheckSensitivity_threshold_strict (motionRepository : HistoryRepo)
    (motionDto : MotionDto) :
    ((sanityCheckSensitivity motionRepository motionDto).warnings ≠ [] ↔
      12 < motionDto.timestamp - (oppositeRecord motionRepository motionDto).timestamp) ∧
    (motionDto.timestamp - (oppositeRecord motionRepository motionDto).timestamp = 12 →
      (sanityCheckSensitivity motionRepository motionDto).warnings = []) ∧
    (motionDto.timestamp - (oppositeRecord motionRepository motionDto).timestamp < 0 →
      (sanityCheckSensitivity motionRepository motionDto).warnings = []) := by
  have main : (sanityCheckSensitivity motionRepository motionDto).warnings ≠ [] ↔
      12 < motionDto.timestamp - (oppositeRecord motionRepository motionDto).timestamp := by
    unfold sanityCheckSensitivity oppositeRecord
    by_cases hs : isStatic motionDto <;>
      simp [hs, ite_singleton_ne_nil, lt_sub_iff_add_lt]
  refine ⟨main, fun h12 => ?_, fun hneg => ?_⟩
  · by_contra hne
    have := main.mp hne
    rw [h12] at this
    exact lt_irrefl 12 this
  · by_contra hne
    have := main.mp hne
    linarith

/-- Claim C5: sanityCheckSensitivity fetches exactly one historical record,
the one of the opposite state: for a static-tagged reading the last moving
record of the device, warning that sensitivity is too low for that device
when the hour difference exceeds 12; for a moving-tagged reading the last
static record, warning symmetrically that sensitivity is too high. -/
theorem sanityCheckSensitivity_opposite_fetch (motionRepository : HistoryRepo)
    (motionDto : MotionDto) :
    (sanityCheckSensitivity motionRepository motionDto).fetches =
      [if isStatic motionDto then Fetch.lastMoving motionDto.deviceId
       else Fetch.lastStatic motionDto.deviceId] ∧
    (sanityCheckSensitivity motionRepository motionDto).warnings =
      (if isStatic motionDto then
        (if 12 < motionDto.timestamp -
            (motionRepository.getLastMovingRecord motionDto.deviceId).timestamp then
          [Warning.sensitivityTooLow motionDto.deviceId] else [])
      else
        (if 12 < motionDto.timestamp -
            (motionRepository.getLastStaticRecord motionDto.deviceId).timestamp then
          [Warning.sensitivityTooHigh motionDto.deviceId] else [])) := by
  by_cases hs : isStatic motionDto <;> simp [sanityCheckSensitivity, hs]

/-- Claim C6: notifyMeOnMovingHighConsumptionDevice returns with no effect
and runs no assertion when consumption is not high — whatever the reading,
so a static reading never raises NotMoving there; when consumption is high
it runs assertIsMoving, whose failure propagates uncaught, and on success
emits the two warnings naming the device id, the sensor id and the
reading's speed. -/
theorem notifyMeOnMovingHighConsumptionDevice_spec (motionDto : MotionDto)
    (meterDto : MeterDto) :
    (isPowerConsumptionHigh meterDto = false →
      notifyMeOnMovingHighConsumptionDevice motionDto meterDto = Except.ok []) ∧
    (isPowerConsumptionHigh meterDto = true →
      ∀ e : ValidationError, assertIsMoving motionDto = Except.error e →
        notifyMeOnMovingHighConsumptionDevice motionDto meterDto = Except.error e) ∧
    (isPowerConsumptionHigh meterDto = true →
      assertIsMoving motionDto = Except.ok () →
        notifyMeOnMovingHighConsumptionDevice motionDto meterDto =
          Except.ok [Warning.highConsumption motionDto.deviceId,
            Warning.movingAttribution motionDto.sensorId motionDto.speed]) := by
  refine ⟨fun hlow => ?_, fun hhigh e he => ?_, fun hhigh hok => ?_⟩
  · simp [notifyMeOnMovingHighConsumptionDevice, hlow]
  · simp [notifyMeOnMovingHighConsumptionDevice, hhigh, he]
  · simp [notifyMeOnMovingHighConsumptionDevice, hhigh, hok]

/-- Claim C7: validation in createMovingMotion is all-or-nothing before
persistence: whenever the validation prefix (assertIsMoving followed by
assertNotZeroOrNegative) fails on the input's value, the call returns that
very error and nothing is ever handed to the persistence collaborator. -/
theorem createMovingMotion_all_or_nothing (h : Heap) (a fresh : Addr)
    (e : ValidationError) (hfail : validateMotion (h a) = Except.error e) :
    (createMovingMotion h a fresh).result = Except.error e ∧
    (createMovingMotion h a fresh).persisted = [] := by
  have hclone : structuredClone h a fresh fresh = h a :=
    structuredClone_at_fresh h a fresh
  unfold validateMotion at hfail
  simp only [createMovingMotion, hclone]
  rcases hE1 : assertIsMoving (h a) with e1 | u1
  · rw [hE1] at hfail
    simp only at hfail
    injection hfail with h1
    subst h1
    exact ⟨rfl, rfl⟩
  · rw [hE1] at hfail
    simp only at hfail
    rcases hE2 : assertNotZeroOrNegative (h a).speed with e2 | u2
    · rw [hE2] at hfail
      injection hfail with h2
      subst h2
      exact ⟨rfl, rfl⟩
    · rw [hE2] at hfail
      exact absurd hfail (by simp)

/-- Witness for C7: a moving-tagged reading with speed 0 fails validation
with NotMoving and nothing is persisted. -/
theorem createMovingMotion_all_or_nothing_witness :
    (createMovingMotion heapMovingZero 0 1).result =
      Except.error ValidationError.NotMoving ∧
    (createMovingMotion heapMovingZero 0 1).persisted = [] :=
  createMovingMotion_all_or_nothing heapMovingZero 0 1 ValidationError.NotMoving rfl

/-- Claim C8: isPowerConsumptionHigh returns true exactly when the meter's
consumption strictly exceeds its maximum; on the boundary, where the
consumption equals the maximum, it returns false.  It is a total function
of the record value with no other output. -/
theorem isPowerConsumptionHigh_spec (meterDto : MeterDto) :
    (isPowerConsumptionHigh meterDto = true ↔
      meterDto.maximumPowerConsumption < meterDto.powerConsumption) ∧
    isPowerConsumptionHigh
      ⟨meterDto.sensorId, meterDto.deviceId, meterDto.maximumPowerConsumption,
        meterDto.maximumPowerConsumption⟩ = false := by
  constructor
  · simp [isPowerConsumptionHigh]
  · simp [isPowerConsumptionHigh]

/-- Claim C9: a static-tagged reading given to createMovingMotion fails
with UnknownDataType — not NotMoving or any wrong-state kind — because
assertIsMoving silently passes on the static tag and
assertNotZeroOrNegative then rejects the clone's absent (undefined) speed
field; nothing is persisted. -/
theorem createMovingMotion_static_unknownDataType (h : Heap) (a fresh : Addr)
    (hs : (h a).status = Status.static) (hsp : (h a).speed = JSValue.undef) :
    (createMovingMotion h a fresh).result =
      Except.error ValidationError.UnknownDataType ∧
    (createMovingMotion h a fresh).persisted = [] := by
  have hclone : structuredClone h a fresh fresh = h a :=
    structuredClone_at_fresh h a fresh
  have h1 : assertIsMoving (h a) = Except.ok () := by
    simp [assertIsMoving, hs]
  have h2 : assertNotZeroOrNegative (h a).speed =
      Except.error ValidationError.UnknownDataType := by
    rw [hsp]
    rfl
  simp [createMovingMotion, hclone, h1, h2]

/-- Witness for C9: the concrete static reading at address 0, clone at
address 1: the call fails with UnknownDataType and persists nothing. -/
theorem createMovingMotion_static_unknownDataType_witness :
    (createMovingMotion heapStatic 0 1).result =
      Except.error ValidationError.UnknownDataType ∧
    (createMovingMotion heapStatic 0 1).persisted = [] :=
  createMovingMotion_static_unknownDataType heapStatic 0 1 rfl rfl

/-- Claim C10: a static-tagged reading paired with a meter whose
consumption exceeds its maximum does not make
notifyMeOnMovingHighConsumptionDevice fail: assertIsMoving passes on the
static tag, and both warnings are emitted with the speed reported as the
absent (undefined) value. -/
theorem notifyMe_static_high_consumption (motionDto : MotionDto)
    (meterDto : MeterDto) (hs : motionDto.status = Status.static)
    (hsp : motionDto.speed = JSValue.undef)
    (hhigh : isPowerConsumptionHigh meterDto = true) :
    notifyMeOnMovingHighConsumptionDevice motionDto meterDto =
      Except.ok [Warning.highConsumption motionDto.deviceId,
        Warning.movingAttribution motionDto.sensorId JSValue.undef] := by
  have h1 : assertIsMoving motionDto = Except.ok () := by
    simp [assertIsMoving, hs]
  simp [notifyMeOnMovingHighConsumptionDevice, hhigh, h1, hsp]

/-- Witness for C10: the concrete static reading and the 100-of-50 meter:
the call succeeds and emits both warnings. -/
theorem notifyMe_static_high_consumption_witness :
    notifyMeOnMovingHighConsumptionDevice staticDto meterHigh =
      Except.ok [Warning.highConsumption staticDto.deviceId,
        Warning.movingAttribution staticDto.sensorId JSValue.undef] :=
  notifyMe_static_high_consumption staticDto meterHigh rfl rfl (by decide)
